import Mathlib

set_option autoImplicit false

/-!
Shallow embedding of the Q2 training-dashboard repository
(`src/dashboard.py`, `src/report_generator.py`) and verification of the
specification claims about its normalization, aggregation and
reconciliation logic.

Conventions of the embedding:
* A spreadsheet cell holding a possibly-missing textual value is
  `Option String` (`none` models a NaN cell; `pandas` turns NaN into the
  string "nan" via `astype(str)`, which `to_numeric` coerces back to NaN,
  so mapping `none` directly to a missing parse result is faithful).
* Parsed numeric cells are `Option Rat` (`none` = NaN / missing).
* Floating-point results of pandas arithmetic are modelled by `PFloat`:
  an exact rational, positive or negative infinity, or NaN.  Pandas/NumPy
  division of a positive number by zero yields +inf (not an exception),
  and 0/0 yields NaN; `Series.fillna(0)` replaces only NaN, never inf.
-/

namespace Q2

/-! ### Numeric normalizer: `_to_number_percent_aware` (dashboard.py 437-448)

The Python code does `series.astype(str).str.strip()`, removes every `%`,
replaces `,` by `.`, and runs `pd.to_numeric(..., errors='coerce')`.
`to_numeric` on a cleaned cell behaves like Python `float`: it ignores
surrounding whitespace and accepts an optionally signed decimal literal.
The model parses exactly the optionally signed plain decimal literals
(digits with at most one decimal point); every other string is coerced to
missing, mirroring `errors='coerce'`. -/

/-- Leading and trailing whitespace removal, modelling Python `str.strip`. -/
def stripChars (cs : List Char) : List Char :=
  ((cs.dropWhile Char.isWhitespace).reverse.dropWhile Char.isWhitespace).reverse

/-- The cleanup pipeline of `_to_number_percent_aware`: strip, drop every
percent sign, replace the locale comma by a period
(`.str.strip()`, `.str.replace('%','')`, `.str.replace(',', '.')`). -/
def cleanChars (cs : List Char) : List Char :=
  ((stripChars cs).filter (fun c => c != '%')).map (fun c => if c = ',' then '.' else c)

/-- Value of a digit string, most significant first. -/
def digitsToNat (cs : List Char) : Nat :=
  cs.foldl (fun n c => 10 * n + (c.toNat - 48)) 0

/-- Parse an unsigned decimal literal (digits with at most one point, at
least one digit overall, forms like "5", "5.", ".5", "5.25"), as Python
`float` does on the cleaned text; anything else is unparseable. -/
def parseUnsigned (cs : List Char) : Option Rat :=
  let intPart := cs.takeWhile (fun c => c != '.')
  let rest := cs.dropWhile (fun c => c != '.')
  match rest with
  | [] =>
      if intPart ≠ [] ∧ intPart.all Char.isDigit then
        some (digitsToNat intPart : Rat)
      else none
  | _ :: fracPart =>
      if (intPart ≠ [] ∨ fracPart ≠ []) ∧ intPart.all Char.isDigit ∧ fracPart.all Char.isDigit
      then some ((digitsToNat intPart : Rat) + (digitsToNat fracPart : Rat) / 10 ^ fracPart.length)
      else none

/-- `pd.to_numeric(errors='coerce')` applied to one cleaned cell: the
cleanup of `_to_number_percent_aware` followed by signed-decimal parsing.
`float` tolerates whitespace around the literal, hence the inner strip. -/
def parseEntry (e : Option String) : Option Rat :=
  e.bind fun s =>
    match stripChars (cleanChars s.toList) with
    | '-' :: t => (parseUnsigned t).map (fun q => -q)
    | '+' :: t => parseUnsigned t
    | cs => parseUnsigned cs

/-- The parsed column: local variable `nums` of `_to_number_percent_aware`. -/
def parsedCol (col : List (Option String)) : List (Option Rat) :=
  col.map parseEntry

/-- `Series.between(0, 1)` (inclusive on both ends). -/
def inUnitInterval (q : Rat) : Bool :=
  decide (0 ≤ q ∧ q ≤ 1)

/-- `_to_number_percent_aware` (dashboard.py 437-448): parse the column,
then, when the column has parseable values and strictly more than 80% of
them lie in [0,1] (`non_na.between(0,1).mean() > 0.8`), multiply the whole
column by 100.  `5 * count > 4 * length` is the mean comparison cleared of
denominators; it is false for an empty `non_na`, exactly like the
`len(non_na) > 0 and ...` guard in the source. -/
def to_number_percent_aware (col : List (Option String)) : List (Option Rat) :=
  let nums := parsedCol col
  let nonNa := nums.filterMap id
  if 5 * nonNa.countP inUnitInterval > 4 * nonNa.length then
    nums.map (Option.map (fun q => q * 100))
  else
    nums

/-! ### Final-exam source selection (dashboard.py 450-465) -/

/-- Count of non-missing entries of a normalized column
(`series.notna().sum()`; an absent column contributes `0`). -/
def nonNaCount (col : List (Option Rat)) : Nat :=
  (col.filterMap id).length

/-- `threshold = max(5, int(0.05 * len(trainee_df))) if len(trainee_df) > 0 else 0`
(dashboard.py 456).  For a row count `n` in any realistic range,
`int(0.05 * n)` in double precision equals `n / 20` (floor), which is how
the truncated 5% is embedded. -/
def finalThreshold (n : Nat) : Nat :=
  if 0 < n then max 5 (n / 20) else 0

/-- Provenance label of the primary candidate column. -/
def scoreLabel : String := "Score"

/-- Provenance label of the secondary candidate column (dashboard.py 462). -/
def altFinalLabel : String := "الامتحان النهائي"

/-- Provenance label recorded when neither candidate is usable
(dashboard.py 465). -/
def unavailableLabel : String := "غير متاح"

/-- Final-exam source selection (dashboard.py 450-465): normalize both
candidate columns (an absent column, `none`, becomes the empty series),
and pick the primary iff its non-missing count meets the threshold, else
the secondary iff it has any non-missing value, else an all-missing column
of length `n` with the "unavailable" label. -/
def selectFinalExam (scoreCol altCol : Option (List (Option String))) (n : Nat) :
    List (Option Rat) × String :=
  let scoreSeries := (scoreCol.map to_number_percent_aware).getD []
  let altSeries := (altCol.map to_number_percent_aware).getD []
  if nonNaCount scoreSeries ≥ finalThreshold n then
    (scoreSeries, scoreLabel)
  else if 0 < nonNaCount altSeries then
    (altSeries, altFinalLabel)
  else
    (List.replicate n none, unavailableLabel)

/-! ### Group aggregation (dashboard.py 125-136 and 468-473) -/

/-- `(series >= 60)`-style count over a column with missing values: a NaN
comparison is `False` in pandas, so only non-missing values at least `thr`
are counted. -/
def countAtLeast (thr : Rat) (vals : List (Option Rat)) : Nat :=
  (vals.filterMap id).countP (fun q => decide (thr ≤ q))

/-- The `success_rate` of `gov_performance` / `program_performance`
(dashboard.py 129, 157): `(x['Attendance'] >= 60).sum() / len(x) * 100`.
The denominator is `len(x)` — all rows of the group, missing values
included. -/
def success_rate_of_group (vals : List (Option Rat)) : Rat :=
  (countAtLeast 60 vals : Rat) / (vals.length : Rat) * 100

/-- One branch of `_success_rates` (dashboard.py 468-473):
`((g[col] >= 60).sum() / valid * 100) if valid > 0 else 0` where
`valid` counts the non-missing entries.  Groups with no valid value get
rate 0, not an error. -/
def exam_pass_rate (vals : List (Option Rat)) : Rat :=
  if 0 < nonNaCount vals then
    (countAtLeast 60 vals : Rat) / (nonNaCount vals : Rat) * 100
  else 0

/-- Group keys produced by `DataFrame.groupby(key)`: missing keys are
dropped (pandas `dropna=True` default, the only behaviour the code uses);
each remaining key appears once.  Key order is modelled as first
occurrence — pandas sorts the groups, which none of the stated properties
depend on. -/
def groupKeys (rows : List (Option String × Option Rat)) : List String :=
  (rows.filterMap (fun r => r.1)).dedup

/-- The value column of one group: all rows whose key equals `k`. -/
def groupVals (k : String) (rows : List (Option String × Option Rat)) :
    List (Option Rat) :=
  (rows.filter (fun r => decide (r.1 = some k))).map (fun r => r.2)

/-- `gov_performance` (dashboard.py 125-136), reduced to the data it
computes: per governorate group, the `success_rate` over attendance.
Rows whose governorate is missing belong to no group; the code passes no
flag to `groupby` and has no "unknown" bucket. -/
def gov_performance (rows : List (Option String × Option Rat)) :
    List (String × Rat) :=
  (groupKeys rows).map (fun k => (k, success_rate_of_group (groupVals k rows)))

/-- `groupby(key).size()` as used for `actual_by_program`
(dashboard.py 580): per non-missing key, the number of rows carrying it;
rows with a missing key are dropped. -/
def size_by_key (keys : List (Option String)) : List (String × Nat) :=
  (keys.filterMap id).dedup.map
    (fun k => (k, keys.countP (fun e => decide (e = some k))))

/-! ### Pandas-style float arithmetic for the rate computations -/

/-- A pandas float cell: an exact rational, an infinity, or NaN. -/
inductive PFloat where
  | fin : Rat → PFloat
  | posInf : PFloat
  | negInf : PFloat
  | nan : PFloat
deriving DecidableEq

/-- NumPy/pandas division: a nonzero numerator over zero gives a signed
infinity, 0/0 gives NaN, otherwise the exact quotient.  No exception is
raised. -/
def pdiv (a b : Rat) : PFloat :=
  if b = 0 then
    if a = 0 then PFloat.nan else if 0 < a then PFloat.posInf else PFloat.negInf
  else PFloat.fin (a / b)

/-- Multiplication of a pandas float by the positive constant 100, the
only scaling the rate computations perform; it preserves infinities and
NaN. -/
def pscale (x : PFloat) (c : Rat) : PFloat :=
  match x with
  | PFloat.fin q => PFloat.fin (q * c)
  | PFloat.posInf => PFloat.posInf
  | PFloat.negInf => PFloat.negInf
  | PFloat.nan => PFloat.nan

/-- Rounding to one decimal place, as `Series.round(1)` does on the
non-tie values that occur here (pandas breaks exact ties to even, which
never arises in the verified computations). -/
def round1 (q : Rat) : Rat :=
  ((⌊10 * q + 1 / 2⌋ : Int) : Rat) / 10

/-- `Series.round(1)`: rounds finite cells, leaves inf and NaN alone. -/
def pround1 : PFloat → PFloat
  | PFloat.fin q => PFloat.fin (round1 q)
  | x => x

/-- `Series.fillna(0)`: replaces NaN by 0 and nothing else — in
particular an infinity produced by division by zero survives it. -/
def pfillna0 : PFloat → PFloat
  | PFloat.nan => PFloat.fin 0
  | x => x

/-! ### Rate computations (dashboard.py 86-87, 570-571, 588;
report_generator.py 33, 47) -/

/-- `success_rate = (trainees_passed / total_trainees * 100) if total_trainees > 0 else 0`
(dashboard.py 86; line 87 is the same shape for the failure rate). -/
def overview_success_rate (passed total : Nat) : Rat :=
  if 0 < total then (passed : Rat) / (total : Rat) * 100 else 0

/-- `enrollment_rate = (len(trainee_df) / plan_df['...'].sum()) * 100`
(dashboard.py 570): an unguarded NumPy division. -/
def enrollment_rate (nTrainees : Nat) (targetSum : Rat) : PFloat :=
  pscale (pdiv (nTrainees : Rat) targetSum) 100

/-- `comparison['fulfillment_rate'] = (actual_count / target * 100).round(1)`
(dashboard.py 588): no `fillna`, so a zero target yields inf (or NaN at
0/0) in the rendered column. -/
def dashboard_fulfillment_rate (target actual : Rat) : PFloat :=
  pround1 (pscale (pdiv actual target) 100)

/-- The magic average-class-size business constant 17.75
(report_generator.py 33, 47, 135, 206). -/
def avgClassSize : Rat := 71 / 4

/-- `comparison['fulfillment_rate'] = (actual / (planned * 17.75) * 100).fillna(0).round(1)`
(report_generator.py 47): `fillna(0)` catches only the NaN of 0/0; a
positive actual over zero planned courses stays +inf. -/
def report_fulfillment_rate (plannedCourses actual : Rat) : PFloat :=
  pround1 (pfillna0 (pscale (pdiv actual (plannedCourses * avgClassSize)) 100))

/-- `enrollment_rate = (total_registrations / (total_courses * 17.75) * 100) if total_courses > 0 else 0`
(report_generator.py 33): guarded, so the zero-courses case is exactly 0. -/
def report_enrollment_rate (totalRegistrations totalCourses : Nat) : Rat :=
  if 0 < totalCourses then
    (totalRegistrations : Rat) / ((totalCourses : Rat) * avgClassSize) * 100
  else 0

/-! ### Reconciler: outer join and comparison table
(dashboard.py 582-586; report_generator.py 44-48) -/

/-- Association-list lookup on the program-name key. -/
def alookup (k : String) : List (String × Rat) → Option Rat
  | [] => none
  | p :: t => if p.1 = k then some p.2 else alookup k t

/-- `plan.merge(actual, on=key, how='outer').fillna(0)` for aggregates
with unique keys: every plan key with the actual metric (0 when absent),
followed by the actual-only keys with plan metric 0. -/
def outer_join (plan actual : List (String × Rat)) : List (String × Rat × Rat) :=
  plan.map (fun p => (p.1, p.2, (alookup p.1 actual).getD 0))
    ++ (actual.filter (fun a => decide (alookup a.1 plan = none))).map
        (fun a => (a.1, 0, a.2))

/-- One row of the reconciled comparison table of `build_report`
(report_generator.py 44-48). -/
structure CompRow where
  program : String
  planned : Rat
  actualCount : Rat
  rate : PFloat
deriving DecidableEq

/-- Stable descending insertion by the planned metric, modelling
`sort_values('planned_courses', ascending=False)`. -/
def insertDesc (r : CompRow) : List CompRow → List CompRow
  | [] => [r]
  | x :: t => if x.planned < r.planned then r :: x :: t else x :: insertDesc r t

/-- Descending stable sort of comparison rows by the planned metric. -/
def sortByPlannedDesc (l : List CompRow) : List CompRow :=
  l.foldr insertDesc []

/-- The reconciled comparison table of `build_report`
(report_generator.py 44-48): outer join of the plan-side and actual-side
aggregates, fulfillment rate per row, sorted descending by the planned
course count. -/
def build_report_comparison (plan actual : List (String × Rat)) : List CompRow :=
  sortByPlannedDesc ((outer_join plan actual).map
    (fun r => ⟨r.1, r.2.1, r.2.2, report_fulfillment_rate r.2.1 r.2.2⟩))

/-! ## Theorems for the claims -/

/-- Unfolding of the normalizer: parse, then scale by 100 iff strictly
more than 80% of the parseable values lie in the unit interval. -/
theorem to_number_eq (col : List (Option String)) :
    to_number_percent_aware col =
      if 5 * ((parsedCol col).filterMap id).countP inUnitInterval
          > 4 * ((parsedCol col).filterMap id).length then
        (parsedCol col).map (Option.map (fun q => q * 100))
      else parsedCol col := rfl

/-- Claim C8: the normalizer is total and missing-preserving — an empty
column maps to an empty column, lengths are preserved, an entry whose
parse fails comes out missing (never coerced to 0), and a column where
nothing parses comes out all-missing rather than failing. -/
theorem normalizer_total_and_missing :
    to_number_percent_aware [] = []
  ∧ (∀ col : List (Option String), (to_number_percent_aware col).length = col.length)
  ∧ (∀ (col : List (Option String)) (i : Nat) (e : Option String),
      col[i]? = some e → parseEntry e = none →
      (to_number_percent_aware col)[i]? = some none)
  ∧ (∀ col : List (Option String), (∀ e ∈ col, parseEntry e = none) →
      to_number_percent_aware col = List.replicate col.length none) := by
  refine ⟨rfl, ?_, ?_, ?_⟩
  · intro col
    rw [to_number_eq]
    split
    · simp [parsedCol]
    · simp [parsedCol]
  · intro col i e h1 h2
    rw [to_number_eq]
    split
    · simp [parsedCol, h1, h2]
    · simp [parsedCol, h1, h2]
  · intro col h
    have hp : parsedCol col = List.replicate col.length none := by
      rw [List.eq_replicate_iff]
      refine ⟨by simp [parsedCol], ?_⟩
      intro b hb
      rcases List.mem_map.mp hb with ⟨e, he, rfl⟩
      exact h e he
    have hnil : (parsedCol col).filterMap id = [] := by
      rw [List.filterMap_eq_nil_iff]
      intro a ha
      rw [hp] at ha
      rw [List.eq_of_mem_replicate ha]
      rfl
    rw [to_number_eq, hnil]
    simp [hp]

/-- Claim C8, witness at a concrete column: an unparseable entry comes
out missing and a nothing-parses column comes out all-missing. -/
theorem normalizer_total_and_missing_witness :
    (to_number_percent_aware [some "abc", none])[0]? = some none
  ∧ to_number_percent_aware [some "abc", none] = List.replicate 2 none :=
  ⟨normalizer_total_and_missing.2.2.1 [some "abc", none] 0 (some "abc") rfl rfl,
   normalizer_total_and_missing.2.2.2 [some "abc", none] (by decide)⟩

/-- Claim C2, counterexample: the normalizer performs no clamping — on
the single-entry column "500" the output value is 500, which lies
outside [0, 100], contradicting the claim that every output value is
missing or in [0, 100]. -/
theorem normalizer_range_counterexample :
    to_number_percent_aware [some "500"] = [some (500 : Rat)]
  ∧ ¬ ((500 : Rat) ≤ 100) := by
  constructor
  · decide
  · decide

/-- Claim C2 as amended: outputs are the parsed values, scaled by 100
exactly when the 80% heuristic fires, with no clamping (input "500"
yields 500); when every parseable input lies in [0, 1], every non-missing
output does lie in [0, 100]. -/
theorem normalizer_range_amended :
    ∀ col : List (Option String),
      (∀ q ∈ (parsedCol col).filterMap id, 0 ≤ q ∧ q ≤ 1) →
      ∀ (i : Nat) (q : Rat),
        (to_number_percent_aware col)[i]? = some (some q) →
        0 ≤ q ∧ q ≤ 100 := by
  intro col hcol i q hq
  rw [to_number_eq] at hq
  split at hq
  · rw [List.getElem?_map] at hq
    cases he : (parsedCol col)[i]? with
    | none => rw [he] at hq; simp at hq
    | some e =>
      rw [he] at hq
      cases e with
      | none => simp at hq
      | some q0 =>
        simp only [Option.map_some, Option.map, Option.some.injEq] at hq
        have hmem : some q0 ∈ parsedCol col := List.getElem?_mem he
        have hq0 : q0 ∈ (parsedCol col).filterMap id :=
          List.mem_filterMap.mpr ⟨some q0, hmem, rfl⟩
        obtain ⟨h0, h1⟩ := hcol q0 hq0
        rw [← hq]
        constructor
        · positivity
        · nlinarith
  · have hmem : some q ∈ parsedCol col := List.getElem?_mem hq
    have hq0 : q ∈ (parsedCol col).filterMap id :=
      List.mem_filterMap.mpr ⟨some q, hmem, rfl⟩
    obtain ⟨h0, h1⟩ := hcol q hq0
    exact ⟨h0, by linarith⟩

/-- Claim C2, witness: on the column with single entry "1" (all
parseable values in the unit interval) the scaled output lies in
[0, 100]. -/
theorem normalizer_range_amended_witness :
    (0 : Rat) ≤ ((1 : Nat) : Rat) * 100 ∧ ((1 : Nat) : Rat) * 100 ≤ 100 :=
  normalizer_range_amended [some "1"]
    (by
      intro q hquer
      have hpl : parsedCol [some "1"] = [some ((1 : Nat) : Rat)] := rfl
      rw [hpl] at hquer
      have : q = ((1 : Nat) : Rat) := by simpa using hquer
      rw [this]
      norm_num)
    0 (((1 : Nat) : Rat) * 100) rfl

/-- Claim C3, counterexample: on the column "1","1","1","1","5" exactly
80% of the parseable values lie in [0, 1] — the claim's "at least 80%"
branch demands scaling by 100 — yet the code's strict `> 0.8` comparison
leaves the column unscaled: the first output is 1, not 100. -/
theorem scale_detection_counterexample :
    ((((parsedCol [some "1", some "1", some "1", some "1", some "5"]).filterMap
            id).countP inUnitInterval : Nat) : Rat)
        / ((((parsedCol [some "1", some "1", some "1", some "1", some "5"]).filterMap
            id).length : Nat) : Rat) = 4 / 5
  ∧ to_number_percent_aware [some "1", some "1", some "1", some "1", some "5"]
      = parsedCol [some "1", some "1", some "1", some "1", some "5"]
  ∧ (to_number_percent_aware [some "1", some "1", some "1", some "1", some "5"])[0]?
      = some (some ((1 : Nat) : Rat))
  ∧ ¬ (((1 : Nat) : Rat) = ((1 : Nat) : Rat) * 100) := by
  have h1 : ((parsedCol [some "1", some "1", some "1", some "1", some "5"]).filterMap
      id).countP inUnitInterval = 4 := by decide
  have h2 : ((parsedCol [some "1", some "1", some "1", some "1", some "5"]).filterMap
      id).length = 5 := by decide
  refine ⟨?_, by decide, by decide, ?_⟩
  · rw [h1, h2]
    norm_num
  · push_cast
    norm_num

/-- Claim C3 as amended: scaling by 100 happens exactly when the fraction
of parseable values in [0, 1] is strictly greater than 4/5; at a fraction
of at most 4/5 (including exactly 80%) the parsed values pass through
unscaled. -/
theorem scale_detection_amended :
    ∀ col : List (Option String),
      ((4 / 5 : Rat) < (((parsedCol col).filterMap id).countP inUnitInterval : Rat)
            / (((parsedCol col).filterMap id).length : Rat) →
        to_number_percent_aware col
          = (parsedCol col).map (Option.map (fun q => q * 100)))
    ∧ ((((parsedCol col).filterMap id).countP inUnitInterval : Rat)
            / (((parsedCol col).filterMap id).length : Rat) ≤ 4 / 5 →
        to_number_percent_aware col = parsedCol col) := by
  intro col
  have hcle : ((parsedCol col).filterMap id).countP inUnitInterval
      ≤ ((parsedCol col).filterMap id).length := List.countP_le_length _
  constructor
  · intro h
    have hl : 0 < ((parsedCol col).filterMap id).length := by
      rcases Nat.eq_zero_or_pos ((parsedCol col).filterMap id).length with h0 | h0
      · rw [h0] at h
        norm_num at h
      · exact h0
    have hql : (0 : Rat) < (((parsedCol col).filterMap id).length : Rat) := by
      exact_mod_cast hl
    rw [div_lt_div_iff₀ (by norm_num) hql] at h
    have hnat : 4 * ((parsedCol col).filterMap id).length
        < 5 * ((parsedCol col).filterMap id).countP inUnitInterval := by
      have h5 : (4 : Rat) * ((parsedCol col).filterMap id).length
          < 5 * ((parsedCol col).filterMap id).countP inUnitInterval := by
        linarith
      exact_mod_cast h5
    rw [to_number_eq, if_pos hnat]
  · intro h
    have hng : ¬ (5 * ((parsedCol col).filterMap id).countP inUnitInterval
        > 4 * ((parsedCol col).filterMap id).length) := by
      intro hg
      have hl : 0 < ((parsedCol col).filterMap id).length := by omega
      have hql : (0 : Rat) < (((parsedCol col).filterMap id).length : Rat) := by
        exact_mod_cast hl
      have hq : (4 / 5 : Rat)
          < (((parsedCol col).filterMap id).countP inUnitInterval : Rat)
            / (((parsedCol col).filterMap id).length : Rat) := by
        rw [div_lt_div_iff₀ (by norm_num) hql]
        have h5 : (4 : Rat) * ((parsedCol col).filterMap id).length
            < 5 * ((parsedCol col).filterMap id).countP inUnitInterval := by
          exact_mod_cast hg
        linarith
      exact absurd hq (not_lt.mpr h)
    rw [to_number_eq, if_neg hng]

/-- Claim C3, witness for the amended statement: on the single-entry
column "1" the in-unit fraction is 1 > 4/5 and the column is scaled. -/
theorem scale_detection_amended_witness :
    to_number_percent_aware [some "1"]
      = (parsedCol [some "1"]).map (Option.map (fun q => q * 100)) :=
  (scale_detection_amended [some "1"]).1
    (by
      have h1 : ((parsedCol [some "1"]).filterMap id).countP inUnitInterval = 1 := by
        decide
      have h2 : ((parsedCol [some "1"]).filterMap id).length = 1 := by decide
      rw [h1, h2]
      norm_num)

/-- Claim C4, counterexample: on an empty trainee table (0 rows, both
candidate columns absent) the claim's threshold max(5, 5% of 0) = 5 is
not met by the score column's 0 non-missing values and the secondary has
none either, so the claim requires the "unavailable" provenance; the code
instead uses threshold 0 and selects "Score". -/
theorem final_source_selection_counterexample :
    (selectFinalExam none none 0).2 = "Score"
  ∧ nonNaCount (((none : Option (List (Option String))).map
        to_number_percent_aware).getD []) = 0
  ∧ 0 < max 5 (0 / 20)
  ∧ (selectFinalExam none none 0).2 ≠ unavailableLabel := by
  decide

/-- Claim C4 as amended: for a positive row count `n` the selection
follows the claimed policy with threshold max(5, floor of 5% of n) —
primary "Score" when its non-missing count meets the threshold, else the
secondary when it has any non-missing value, else an all-missing column
labelled unavailable; for `n = 0` the threshold is 0 and "Score" is
always selected. -/
theorem final_source_selection_amended :
    ∀ (scoreCol altCol : Option (List (Option String))) (n : Nat),
      (0 < n →
        max 5 (n / 20)
            ≤ nonNaCount ((scoreCol.map to_number_percent_aware).getD []) →
        selectFinalExam scoreCol altCol n
          = ((scoreCol.map to_number_percent_aware).getD [], "Score"))
    ∧ (0 < n →
        nonNaCount ((scoreCol.map to_number_percent_aware).getD [])
            < max 5 (n / 20) →
        0 < nonNaCount ((altCol.map to_number_percent_aware).getD []) →
        selectFinalExam scoreCol altCol n
          = ((altCol.map to_number_percent_aware).getD [], altFinalLabel))
    ∧ (0 < n →
        nonNaCount ((scoreCol.map to_number_percent_aware).getD [])
            < max 5 (n / 20) →
        nonNaCount ((altCol.map to_number_percent_aware).getD []) = 0 →
        selectFinalExam scoreCol altCol n
          = (List.replicate n none, unavailableLabel))
    ∧ (n = 0 → (selectFinalExam scoreCol altCol n).2 = "Score") := by
  intro scoreCol altCol n
  refine ⟨?_, ?_, ?_, ?_⟩
  · intro hn hge
    have ht : finalThreshold n = max 5 (n / 20) := by
      rw [finalThreshold, if_pos hn]
    simp only [selectFinalExam]
    rw [ht, if_pos hge]
    rfl
  · intro hn hlt hpos
    have ht : finalThreshold n = max 5 (n / 20) := by
      rw [finalThreshold, if_pos hn]
    simp only [selectFinalExam]
    rw [ht, if_neg (not_le.mpr hlt), if_pos hpos]
  · intro hn hlt hz
    have ht : finalThreshold n = max 5 (n / 20) := by
      rw [finalThreshold, if_pos hn]
    simp only [selectFinalExam]
    rw [ht, if_neg (not_le.mpr hlt), if_neg (by omega)]
  · intro h0
    subst h0
    simp [selectFinalExam, finalThreshold, scoreLabel]

/-- Claim C4, witness: one row, a primary column with five non-missing
normalized values meeting the threshold max(5, 0) = 5, selected with
provenance "Score". -/
theorem final_source_selection_amended_witness :
    selectFinalExam (some [some "50", some "60", some "70", some "80", some "90"])
        none 1
      = (((some [some "50", some "60", some "70", some "80", some "90"]).map
            to_number_percent_aware).getD [], "Score") :=
  (final_source_selection_amended
      (some [some "50", some "60", some "70", some "80", some "90"]) none 1).1
    (by decide) (by decide)

/-- Claim C1, counterexample: the dashboard enrollment rate
(dashboard.py 570) at 5 trainees and a planned-target sum of 0 is
positive infinity, not the 0 the claim requires for every zero-denominator
rate. -/
theorem rate_zero_denominator_counterexample :
    enrollment_rate 5 0 = PFloat.posInf ∧ PFloat.posInf ≠ PFloat.fin 0 := by
  decide

/-- Claim C1 as amended: on a zero denominator the guarded rates
(report enrollment rate, overview success rate) are exactly 0, while the
unguarded ones (dashboard enrollment rate, both outer-join fulfillment
rates) are positive infinity for a positive numerator and NaN at 0/0 —
except that the report fulfillment rate turns its 0/0 NaN into 0 via
`fillna(0)`. -/
theorem rate_zero_denominator_amended :
    (∀ t : Nat, 0 < t → enrollment_rate t 0 = PFloat.posInf)
  ∧ enrollment_rate 0 0 = PFloat.nan
  ∧ (∀ a : Rat, 0 < a → dashboard_fulfillment_rate 0 a = PFloat.posInf)
  ∧ dashboard_fulfillment_rate 0 0 = PFloat.nan
  ∧ (∀ a : Rat, 0 < a → report_fulfillment_rate 0 a = PFloat.posInf)
  ∧ report_fulfillment_rate 0 0 = PFloat.fin 0
  ∧ (∀ r : Nat, report_enrollment_rate r 0 = 0)
  ∧ (∀ p : Nat, overview_success_rate p 0 = 0) := by
  refine ⟨?_, by decide, ?_, by decide, ?_,
    by norm_num [report_fulfillment_rate, pdiv, pscale, pfillna0, pround1, round1,
      avgClassSize], ?_, ?_⟩
  · intro t ht
    have h : (0 : Rat) < (t : Rat) := by exact_mod_cast ht
    simp [enrollment_rate, pdiv, pscale, h, h.ne']
  · intro a ha
    simp [dashboard_fulfillment_rate, pdiv, pscale, pround1, ha, ha.ne']
  · intro a ha
    simp [report_fulfillment_rate, pdiv, pscale, pround1, pfillna0, avgClassSize,
      ha, ha.ne']
  · intro r
    simp [report_enrollment_rate]
  · intro p
    simp [overview_success_rate]

/-- Claim C1, witness for the amended statement at concrete inputs. -/
theorem rate_zero_denominator_amended_witness :
    enrollment_rate 7 0 = PFloat.posInf
  ∧ dashboard_fulfillment_rate 0 3 = PFloat.posInf :=
  ⟨rate_zero_denominator_amended.1 7 (by decide),
   rate_zero_denominator_amended.2.2.1 3 (by norm_num)⟩

/-- Claim C5, counterexample: on the group [55, 60, 65, missing] with
threshold 60, the governorate success rate of `gov_performance`
(dashboard.py 129) is 50 — it divides by the total row count, missing
included — and not the 2/3 × 100 the claim states for every group. -/
theorem pass_rate_denominator_counterexample :
    success_rate_of_group [some 55, some 60, some 65, none] = 50
  ∧ (50 : Rat) ≠ 2 / 3 * 100 := by
  have h1 : countAtLeast 60 [some 55, some 60, some 65, none] = 2 := by decide
  have h2 : ([some (55 : Rat), some 60, some 65, none]).length = 4 := rfl
  rw [success_rate_of_group, h1, h2]
  norm_num

/-- Claim C5 as amended: the exam pass rate of `_success_rates` divides
the count of values at least 60 by the count of non-missing values (so
[55, 60, 65, missing] gives 2/3 × 100) and is 0 for a group with no
non-missing value; the governorate/program success rate instead divides
by the total row count of the group, missing values included. -/
theorem pass_rate_amended :
    exam_pass_rate [some 55, some 60, some 65, none] = 2 / 3 * 100
  ∧ (∀ vals : List (Option Rat), nonNaCount vals = 0 → exam_pass_rate vals = 0)
  ∧ (∀ vals : List (Option Rat), 0 < nonNaCount vals →
       exam_pass_rate vals * (nonNaCount vals : Rat) = (countAtLeast 60 vals : Rat) * 100)
  ∧ (∀ vals : List (Option Rat), vals ≠ [] →
       success_rate_of_group vals * (vals.length : Rat)
         = (countAtLeast 60 vals : Rat) * 100) := by
  refine ⟨?_, ?_, ?_, ?_⟩
  · have h1 : countAtLeast 60 [some 55, some 60, some 65, none] = 2 := by decide
    have h2 : nonNaCount [some (55 : Rat), some 60, some 65, none] = 3 := by decide
    rw [exam_pass_rate, if_pos (by decide), h1, h2]
    norm_num
  · intro vals h
    simp [exam_pass_rate, h]
  · intro vals h
    have hne : ((nonNaCount vals : Nat) : Rat) ≠ 0 := by
      exact_mod_cast h.ne'
    rw [exam_pass_rate, if_pos h]
    field_simp
  · intro vals h
    have hlen : vals.length ≠ 0 := by
      simpa [List.length_eq_zero] using h
    have hne : ((vals.length : Nat) : Rat) ≠ 0 := by
      exact_mod_cast hlen
    rw [success_rate_of_group]
    field_simp

/-- Claim C5, witness for the amended statement at a concrete group. -/
theorem pass_rate_amended_witness :
    exam_pass_rate [some (70 : Rat)] * ((nonNaCount [some (70 : Rat)] : Nat) : Rat)
      = (countAtLeast 60 [some (70 : Rat)] : Rat) * 100 :=
  pass_rate_amended.2.2.1 [some 70] (by decide)

/-- A key is absent from an association list exactly when lookup fails. -/
theorem alookup_eq_none (k : String) (l : List (String × Rat)) :
    alookup k l = none ↔ k ∉ l.map Prod.fst := by
  induction l with
  | nil => simp [alookup]
  | cons p t ih =>
    by_cases h : p.1 = k
    · simp [alookup, h]
    · simp [alookup, h, ih, Ne.symm h]

/-- The key column of the outer join: the plan keys followed by the
actual-only keys. -/
theorem outer_join_keys (plan actual : List (String × Rat)) :
    (outer_join plan actual).map (fun r => r.1)
      = plan.map Prod.fst
        ++ (actual.filter (fun a => decide (alookup a.1 plan = none))).map Prod.fst := by
  rw [outer_join, List.map_append, List.map_map, List.map_map]
  rfl

/-- Claim C6: the reconciler's merge is a full outer join on the program
key — for aggregates (inputs with no duplicate keys), a key occurs in the
output exactly once iff it occurs in either input, a plan-only key gets 0
for the actual metric, and an actual-only key gets 0 for the planned
metric. -/
theorem reconciler_outer_join (plan actual : List (String × Rat))
    (hp : (plan.map Prod.fst).Nodup) (ha : (actual.map Prod.fst).Nodup) :
    (∀ k : String,
       (k ∈ plan.map Prod.fst ∨ k ∈ actual.map Prod.fst) ↔
         ((outer_join plan actual).map (fun r => r.1)).count k = 1)
  ∧ (∀ (k : String) (v : Rat), (k, v) ∈ plan → k ∉ actual.map Prod.fst →
       (k, v, (0 : Rat)) ∈ outer_join plan actual)
  ∧ (∀ (k : String) (v : Rat), (k, v) ∈ actual → k ∉ plan.map Prod.fst →
       (k, (0 : Rat), v) ∈ outer_join plan actual) := by
  have hkeys := outer_join_keys plan actual
  have hfnd : ((actual.filter
      (fun a => decide (alookup a.1 plan = none))).map Prod.fst).Nodup :=
    ha.sublist ((List.filter_sublist actual).map Prod.fst)
  have hdisj : (plan.map Prod.fst).Disjoint
      ((actual.filter (fun a => decide (alookup a.1 plan = none))).map Prod.fst) := by
    intro k hkp hkf
    rcases List.mem_map.mp hkf with ⟨a, haf, rfl⟩
    have hnone : alookup a.1 plan = none :=
      of_decide_eq_true (List.mem_filter.mp haf).2
    exact (alookup_eq_none a.1 plan).mp hnone hkp
  have hnd : ((outer_join plan actual).map (fun r => r.1)).Nodup := by
    rw [hkeys, List.nodup_append]
    exact ⟨hp, hfnd, hdisj⟩
  have hmemiff : ∀ k : String,
      k ∈ (outer_join plan actual).map (fun r => r.1) ↔
        (k ∈ plan.map Prod.fst ∨ k ∈ actual.map Prod.fst) := by
    intro k
    rw [hkeys, List.mem_append]
    constructor
    · rintro (h | h)
      · exact Or.inl h
      · rcases List.mem_map.mp h with ⟨a, haf, rfl⟩
        exact Or.inr (List.mem_map.mpr ⟨a, (List.mem_filter.mp haf).1, rfl⟩)
    · rintro (h | h)
      · exact Or.inl h
      · by_cases hk : k ∈ plan.map Prod.fst
        · exact Or.inl hk
        · right
          rcases List.mem_map.mp h with ⟨a, hain, rfl⟩
          refine List.mem_map.mpr ⟨a, List.mem_filter.mpr ⟨hain, ?_⟩, rfl⟩
          exact decide_eq_true ((alookup_eq_none a.1 plan).mpr hk)
  refine ⟨?_, ?_, ?_⟩
  · intro k
    constructor
    · intro h
      exact List.count_eq_one_of_mem hnd ((hmemiff k).mpr h)
    · intro h
      have hpos : 0 < ((outer_join plan actual).map (fun r => r.1)).count k := by
        omega
      exact (hmemiff k).mp (List.count_pos_iff.mp hpos)
  · intro k v hmem hnk
    have hnone : alookup k actual = none := (alookup_eq_none k actual).mpr hnk
    rw [outer_join]
    apply List.mem_append_left
    exact List.mem_map.mpr ⟨(k, v), hmem, by simp [hnone]⟩
  · intro k v hmem hnk
    have hnone : alookup k plan = none := (alookup_eq_none k plan).mpr hnk
    rw [outer_join]
    apply List.mem_append_right
    exact List.mem_map.mpr
      ⟨(k, v), List.mem_filter.mpr ⟨hmem, decide_eq_true hnone⟩, rfl⟩

/-- Claim C6, witness: joining plan A with actual B, the actual-only key
B occurs exactly once and carries 0 as its planned metric. -/
theorem reconciler_outer_join_witness :
    ((outer_join [("A", 4)] [("B", 10)]).map (fun r => r.1)).count "B" = 1
  ∧ ("B", (0 : Rat), (10 : Rat)) ∈ outer_join [("A", 4)] [("B", 10)] := by
  have h := reconciler_outer_join [("A", (4 : Rat))] [("B", 10)] (by decide) (by decide)
  exact ⟨(h.1 "B").mp (Or.inr (by decide)), h.2.2 "B" 10 (by decide) (by decide)⟩

/-- Claim C7: evaluating `build_report` on the worked example
PlanAggregate = A with 4 courses and ActualAggregate = A with 50, B with
10 produces A with planned course count 4, actual 50, fulfillment rate
70.4, and B with planned 0, actual 10, fulfillment rate positive
infinity — not the 0 the specification states for B, because
`fillna(0)` replaces only NaN and 10 / 0 is +inf. -/
theorem reconcile_worked_example :
    build_report_comparison [("A", 4)] [("A", 50), ("B", 10)]
      = [⟨"A", 4, 50, PFloat.fin (352 / 5)⟩, ⟨"B", 0, 10, PFloat.posInf⟩]
  ∧ PFloat.posInf ≠ PFloat.fin 0 := by
  have hoj : outer_join [("A", 4)] [("A", 50), ("B", 10)]
      = [("A", 4, 50), ("B", 0, 10)] := rfl
  have hA : report_fulfillment_rate 4 50 = PFloat.fin (352 / 5) := by
    norm_num [report_fulfillment_rate, pdiv, pscale, pfillna0, pround1, round1,
      avgClassSize]
  have hB : report_fulfillment_rate 0 10 = PFloat.posInf := by
    norm_num [report_fulfillment_rate, pdiv, pscale, pfillna0, pround1, round1,
      avgClassSize]
  refine ⟨?_, by decide⟩
  rw [build_report_comparison, hoj]
  simp only [List.map_cons, List.map_nil, hA, hB]
  norm_num [sortByPlannedDesc, insertDesc]

/-- Claim C9, counterexample: a row whose grouping key is missing is
silently dropped by the aggregations — the governorate aggregate of a
single missing-key row is empty, with no "unknown" bucket, and the
group-size aggregate of a single missing key is empty as well; the code
passes no policy flag to `groupby`. -/
theorem aggregator_missing_key_counterexample :
    gov_performance [((none : Option String), some (95 : Rat))] = []
  ∧ size_by_key [(none : Option String)] = [] := by
  decide

/-- Claim C9 as amended: the aggregations drop rows with a missing
grouping key unconditionally (the pandas `groupby` default is the only
behaviour in the code); there is no caller-supplied flag and no "unknown"
bucket. -/
theorem aggregator_always_drops_missing_keys :
    (∀ (v : Option Rat) (rows : List (Option String × Option Rat)),
       gov_performance ((none, v) :: rows) = gov_performance rows)
  ∧ ∀ keys : List (Option String), size_by_key (none :: keys) = size_by_key keys := by
  constructor
  · intro v rows
    simp [gov_performance, groupKeys, groupVals]
  · intro keys
    simp [size_by_key, List.countP_cons]

/-- Claim C10: on an empty trainee table the minimum-population threshold
is 0, so the primary Score candidate (vacuously meeting the threshold) is
always selected with provenance "Score"; the "unavailable" label never
arises for an empty dataset. -/
theorem empty_dataset_selects_score :
    finalThreshold 0 = 0
  ∧ ∀ (scoreCol altCol : Option (List (Option String))),
      (selectFinalExam scoreCol altCol 0).2 = "Score" := by
  refine ⟨rfl, ?_⟩
  intro s a
  simp [selectFinalExam, finalThreshold, scoreLabel]

end Q2
